import Mathlib

/-!
Shallow embedding of the Synapse agent core (backend/agent/base.py,
backend/tools/slack_tools.py, backend/tools/github_tools.py,
backend/memory/redis_cache.py, backend/llm/openai_client.py).

External effects (Slack client, GitHub client, LLM client, Redis cache,
MLflow tracker) are modelled by an oracle environment `Env` supplying the
result of each downstream call, and by an explicit trace (`List Call`) of
the downstream invocations an operation performs, in order.  Exceptions are
modelled by `Except String`; the propagated string models Python `str(e)`.
-/

namespace Synapse

/-- Helper for `containsSub`: does `needle` occur as a contiguous block of
`haystack`? -/
def containsSubAux (needle : List Char) : List Char → Bool
  | [] => needle.isEmpty
  | c :: rest => needle.isPrefixOf (c :: rest) || containsSubAux needle rest

/-- Python `needle in haystack` substring test on strings. -/
def containsSub (needle haystack : String) : Bool :=
  containsSubAux needle.toList haystack.toList

/-- Python `str.lower()` (ASCII case folding, which covers every keyword and
message the router compares). -/
def pyLower (s : String) : String :=
  String.mk (s.toList.map Char.toLower)

/-- Helper for `pySplit`: walk the characters, accumulating the current word
(reversed); whitespace runs separate words and produce no empty words. -/
def pySplitAux : List Char → List Char → List String
  | [], cur => if cur.isEmpty then [] else [String.mk cur.reverse]
  | c :: rest, cur =>
      if c.isWhitespace then
        if cur.isEmpty then pySplitAux rest []
        else String.mk cur.reverse :: pySplitAux rest []
      else pySplitAux rest (c :: cur)

/-- Python `str.split()` with no argument: split on runs of whitespace,
dropping empty tokens. -/
def pySplit (s : String) : List String :=
  pySplitAux s.toList []

/-- Python `word.strip("#")`: remove leading and trailing `#` characters. -/
def stripHash (s : String) : String :=
  String.mk (((s.toList.dropWhile (fun c => c == '#')).reverse.dropWhile
    (fun c => c == '#')).reverse)

/-- Python `str.isdigit()` for the ASCII tokens the router scans: true iff the
string is nonempty and all characters are digits. -/
def pyIsDigit (s : String) : Bool :=
  !s.isEmpty && s.toList.all Char.isDigit

/-- Python `int(...)` on an all-digit string. -/
def pyInt (s : String) : Nat :=
  s.toList.foldl (fun acc c => acc * 10 + (c.toNat - 48)) 0

/-- Python truthiness of `thread_info.get(...)`: `None` and the empty string
are falsy, every other string is truthy. -/
def truthyStr : Option String → Bool
  | none => false
  | some s => !(s == "")

/-- `{channel, thread_ts}` as returned by `OpenAIClient.extract_thread_info`
(`None`-filled fields become `none`). -/
structure ThreadInfo where
  channel : Option String
  thread_ts : Option String
deriving DecidableEq, Repr

/-- `{summary, model, token_count}` as returned by
`OpenAIClient.summarize_thread` and cached by `SlackTools`. -/
structure ThreadSummary where
  summary : String
  model : String
  token_count : Nat
deriving DecidableEq, Repr

/-- A Slack message dictionary; the code reads `msg.get("user", ...)` and
`msg.get("text", "")`. -/
structure SlackMsg where
  user : String
  text : String
deriving DecidableEq, Repr

/-- A GitHub issue as consumed by `triage_issues` (labels flattened to their
names, matching `label.name for label in issue.labels`). -/
structure Issue where
  number : Nat
  title : String
  labels : List String
  body : String
deriving DecidableEq, Repr

/-- A GitHub pull request as consumed by `review_pull_request`. -/
structure PullRequest where
  number : Nat
  title : String
  body : String
  changed_files : Nat
  additions : Nat
  deletions : Nat
deriving DecidableEq, Repr

/-- `{status, issues_triaged, suggestions}` from `triage_issues`
(`suggestions` is the raw LLM response string in the source). -/
structure TriageResult where
  status : String
  issues_triaged : Nat
  suggestions : String
deriving DecidableEq, Repr

/-- `{status, pr_number, review}` from `review_pull_request`. -/
structure ReviewResult where
  status : String
  pr_number : Nat
  review : String
deriving DecidableEq, Repr

/-- The `data` payload of the response envelope, which differs per branch of
`SynapseAgent.handle`. -/
inductive EnvData where
  | summary (s : ThreadSummary)
  | monitorMatches (ms : List SlackMsg)
  | triage (t : TriageResult)
  | review (r : ReviewResult)
deriving DecidableEq, Repr

/-- The uniform response envelope returned by `SynapseAgent.handle`. -/
structure Envelope where
  status : String
  action : Option String := none
  data : Option EnvData := none
  message : Option String := none
deriving DecidableEq, Repr

/-- `{"status": "error", "message": msg}`. -/
def errorEnvelope (msg : String) : Envelope :=
  { status := "error", message := some msg }

/-- One downstream invocation, as recorded in an operation trace.  The
`tool...` constructors mark entry into a Tool Group operation; the others
record Tool Client, LLM Client, cache, and tracker calls. -/
inductive Call where
  | extractThreadInfo (message : String)
  | llmSummarize (messages : List SlackMsg) (model : String)
  | llmChat (prompt : String)
  | getThreadMessages (channel thread_ts : String)
  | getChannelHistory (channel : String) (limit : Nat)
  | postMessage (channel text : String) (thread_ts : Option String)
  | cacheGet (channel thread_ts : String)
  | cacheSet (channel thread_ts : String) (value : ThreadSummary)
  | getIssues (repo state : String)
  | getPullRequests (repo : String)
  | updateLabels (repo : String) (issue_number : Nat) (labels : List String)
  | addComment (repo : String) (issue_number : Nat) (body : String)
  | logToolUsage (tool_name status : String)
  | logLlmUsage (model : String)
  | toolSummarizeThread (channel thread_ts : String)
  | toolPostSummary (channel thread_ts : String)
  | toolMonitorChannel (channel : String) (keywords : List String)
  | toolTriageIssues (repo state : String)
  | toolReviewPullRequest (repo : String) (pr_number : Nat)
deriving DecidableEq, Repr

/-- Oracle for the results of the external calls a single request can make:
each field is what the corresponding downstream API returns (or raises). -/
structure Env where
  extractResult : Except String ThreadInfo
  cacheLookup : Option ThreadSummary
  threadMessages : Except String (List SlackMsg)
  llmSummary : Except String (String × Nat)
  postResult : Except String Unit
  channelHistory : Except String (List SlackMsg)
  issues : Except String (List Issue)
  triageLlmContent : Except String String
  pullRequests : Except String (List PullRequest)
  reviewLlmContent : Except String String

/-- `settings.openai_model` default, used by the GitHub tools for the raw
chat-completion calls. -/
def llmDefaultModel : String := "gpt-4-turbo-preview"

/-- `SlackTools.summarize_thread`: cache lookup first (a hit returns the
cached summary after logging a `cache_hit` record, with no client or LLM
call and no cache write); on a miss, fetch the thread, summarize via the
LLM, log LLM usage, cache the result, log success, and return it.  Any
exception logs an error record and propagates.  The cached value is a
nonempty dict whenever present, so Python `if cached_summary:` is its
presence test. -/
def summarize_thread (env : Env) (channel thread_ts : String)
    (model : String := "gpt-4-turbo-preview") :
    Except String ThreadSummary × List Call :=
  match env.cacheLookup with
  | some cached =>
      (.ok cached,
        [.toolSummarizeThread channel thread_ts, .cacheGet channel thread_ts,
         .logToolUsage "summarize_thread" "cache_hit"])
  | none =>
      match env.threadMessages with
      | .error e =>
          (.error e,
            [.toolSummarizeThread channel thread_ts, .cacheGet channel thread_ts,
             .getThreadMessages channel thread_ts,
             .logToolUsage "summarize_thread" "error"])
      | .ok messages =>
          match env.llmSummary with
          | .error e =>
              (.error e,
                [.toolSummarizeThread channel thread_ts, .cacheGet channel thread_ts,
                 .getThreadMessages channel thread_ts, .llmSummarize messages model,
                 .logToolUsage "summarize_thread" "error"])
          | .ok (content, tokens) =>
              let summaryResult : ThreadSummary :=
                { summary := content, model := model, token_count := tokens }
              (.ok summaryResult,
                [.toolSummarizeThread channel thread_ts, .cacheGet channel thread_ts,
                 .getThreadMessages channel thread_ts, .llmSummarize messages model,
                 .logLlmUsage model, .cacheSet channel thread_ts summaryResult,
                 .logToolUsage "summarize_thread" "success"])

/-- The literal prefix `post_summary` prepends to the posted reply. -/
def summaryMarker : String := "📝 *Thread Summary*\n"

/-- `SlackTools.post_summary`: post a threaded reply with the summary marker,
log usage, propagate any posting failure. -/
def post_summary (env : Env) (channel thread_ts summary : String) :
    Except String Unit × List Call :=
  match env.postResult with
  | .error e =>
      (.error e,
        [.toolPostSummary channel thread_ts,
         .postMessage channel (summaryMarker ++ summary) (some thread_ts),
         .logToolUsage "post_summary" "error"])
  | .ok _ =>
      (.ok (),
        [.toolPostSummary channel thread_ts,
         .postMessage channel (summaryMarker ++ summary) (some thread_ts),
         .logToolUsage "post_summary" "success"])

/-- The per-message keyword test of `monitor_channel`:
`any(keyword.lower() in msg.get("text", "").lower() for keyword in keywords)`. -/
def keywordMatch (keywords : List String) (msg : SlackMsg) : Bool :=
  keywords.any (fun keyword => containsSub (pyLower keyword) (pyLower msg.text))

/-- The filtering loop of `monitor_channel`: `matches = []` then
`matches.append(msg)` for each matching message, preserving fetch order. -/
def monitorLoop (keywords : List String) :
    List SlackMsg → List SlackMsg → List SlackMsg
  | [], found => found
  | msg :: rest, found =>
      if keywordMatch keywords msg then monitorLoop keywords rest (found ++ [msg])
      else monitorLoop keywords rest found

/-- `SlackTools.monitor_channel`: fetch up to `limit` recent messages, keep
those whose lowercased text contains some lowercased keyword, log usage,
return the matches.  Failures log an error record and propagate. -/
def monitor_channel (env : Env) (channel : String) (keywords : List String)
    (limit : Nat := 100) : Except String (List SlackMsg) × List Call :=
  match env.channelHistory with
  | .error e =>
      (.error e,
        [.toolMonitorChannel channel keywords, .getChannelHistory channel limit,
         .logToolUsage "monitor_channel" "error"])
  | .ok messages =>
      let found := monitorLoop keywords messages []
      (.ok found,
        [.toolMonitorChannel channel keywords, .getChannelHistory channel limit,
         .logToolUsage "monitor_channel" "success"])

/-- One issue block of the triage prompt. -/
def issueBlock (issue : Issue) : String :=
  "Issue #" ++ toString issue.number ++ ": " ++ issue.title ++ "\n" ++
  "Labels: " ++ String.intercalate ", " issue.labels ++ "\n" ++
  "Body: " ++ issue.body

/-- `issues_text` of `triage_issues`. -/
def issuesText (issues : List Issue) : String :=
  String.intercalate "\n\n" (issues.map issueBlock)

/-- The batched triage prompt sent to the completion API. -/
def triagePrompt (issues : List Issue) : String :=
  "Analyze these GitHub issues and suggest:\n" ++
  "1. Priority level (high/medium/low)\n" ++
  "2. Appropriate labels\n" ++
  "3. Suggested assignees\n" ++
  "4. Brief summary of action needed\n\nIssues:\n" ++
  issuesText issues ++
  "\n\nReturn a JSON array of objects with fields:\n" ++
  "- issue_number\n- priority\n- suggested_labels\n" ++
  "- suggested_assignees\n- action_summary"

/-- The application loop of `triage_issues`.  In the source,
`triage_suggestions` is the raw LLM response string — it is never parsed as
JSON — so `for suggestion in triage_suggestions` iterates over the
characters of that string, and the first expression of the loop body,
`suggestion["issue_number"]`, subscripts a one-character `str` with a string
key, which raises `TypeError` before any `update_labels` or `add_comment`
call.  An empty response string makes the loop body never run. -/
def applySuggestions (chars : List Char) : Except String Unit × List Call :=
  match chars with
  | [] => (.ok (), [])
  | _ :: _ => (.error "TypeError: string indices must be integers", [])

/-- `GitHubTools.triage_issues`: fetch issues, build the batched prompt, one
chat-completion call, log LLM usage, run the (buggy) suggestion-application
loop, then log tool usage and return; any exception logs an error record and
re-raises. -/
def triage_issues (env : Env) (repo : String) (state : String := "open") :
    Except String TriageResult × List Call :=
  let entry := [Call.toolTriageIssues repo state, Call.getIssues repo state]
  match env.issues with
  | .error e => (.error e, entry ++ [.logToolUsage "triage_issues" "error"])
  | .ok issues =>
      match env.triageLlmContent with
      | .error e =>
          (.error e,
            entry ++ [.llmChat (triagePrompt issues),
                      .logToolUsage "triage_issues" "error"])
      | .ok triageSuggestions =>
          let afterLlm := entry ++
            [Call.llmChat (triagePrompt issues), Call.logLlmUsage llmDefaultModel]
          match applySuggestions triageSuggestions.toList with
          | (.ok _, calls) =>
              (.ok { status := "success", issues_triaged := issues.length,
                     suggestions := triageSuggestions },
                afterLlm ++ calls ++ [.logToolUsage "triage_issues" "success"])
          | (.error e, calls) =>
              (.error e, afterLlm ++ calls ++ [.logToolUsage "triage_issues" "error"])

/-- `pr_text` of `review_pull_request`. -/
def prText (pr : PullRequest) : String :=
  "Title: " ++ pr.title ++ "\nDescription: " ++ pr.body ++
  "\nChanged Files: " ++ toString pr.changed_files ++
  "\nAdditions: " ++ toString pr.additions ++
  "\nDeletions: " ++ toString pr.deletions

/-- The review prompt sent to the completion API. -/
def reviewPrompt (pr : PullRequest) : String :=
  "Review this pull request and provide:\n" ++
  "1. Code quality assessment\n" ++
  "2. Potential issues or concerns\n" ++
  "3. Suggestions for improvement\n" ++
  "4. Overall recommendation (approve/request changes)\n\nPR Details:\n" ++
  prText pr ++
  "\n\nReturn a JSON object with fields:\n" ++
  "- assessment\n- issues\n- suggestions\n- recommendation"

/-- `GitHubTools.review_pull_request`: fetch all PRs, linear-scan for the
number (raising `ValueError` if absent), one chat-completion call, log LLM
usage; the comment construction then subscripts the raw response string
`review` with the key `assessment` — the string is never parsed as JSON — so
it raises `TypeError` before `add_comment` is ever reached; the error is
logged and re-raised. -/
def review_pull_request (env : Env) (repo : String) (pr_number : Nat) :
    Except String ReviewResult × List Call :=
  let entry := [Call.toolReviewPullRequest repo pr_number, Call.getPullRequests repo]
  match env.pullRequests with
  | .error e => (.error e, entry ++ [.logToolUsage "review_pull_request" "error"])
  | .ok prs =>
      match prs.find? (fun p => p.number == pr_number) with
      | none =>
          (.error ("Pull request #" ++ toString pr_number ++ " not found"),
            entry ++ [.logToolUsage "review_pull_request" "error"])
      | some pr =>
          match env.reviewLlmContent with
          | .error e =>
              (.error e,
                entry ++ [.llmChat (reviewPrompt pr),
                          .logToolUsage "review_pull_request" "error"])
          | .ok _review =>
              (.error "TypeError: string indices must be integers",
                entry ++ [.llmChat (reviewPrompt pr), .logLlmUsage llmDefaultModel,
                          .logToolUsage "review_pull_request" "error"])

/-- Repo extraction in `handle`: the first whitespace token containing `/`
and not containing `github.com`. -/
def extractRepo (message : String) : Option String :=
  (pySplit message).find?
    (fun word => containsSub "/" word && !containsSub "github.com" word)

/-- PR-number extraction in `handle`:
`next((int(word.strip("#")) for word in message.split() if word.strip("#").isdigit()), None)` —
the first whitespace token that is all digits after stripping leading and
trailing `#` characters (a bare digit token also qualifies). -/
def extractPrNumber (message : String) : Option Nat :=
  ((pySplit message).find? (fun word => pyIsDigit (stripHash word))).map
    (fun word => pyInt (stripHash word))

/-- Keyword extraction of the monitor branch:
`[word for word in message.lower().split() if word not in ["monitor", "slack", "channel", "for", "in"]]`. -/
def monitorKeywords (message : String) : List String :=
  (pySplit (pyLower message)).filter
    (fun word => !(["monitor", "slack", "channel", "for", "in"].contains word))

/-- The body of the `try` block of `SynapseAgent.handle` after the
`extract_thread_info` call: keyword dispatch in source order.  An `.ok`
result is a normal `return` (including the parameter-extraction error
envelopes); an `.error` result is an exception propagating to the top-level
`except` clause. -/
def dispatch (env : Env) (threadInfo : ThreadInfo) (message : String) :
    Except String Envelope × List Call :=
  let lower := pyLower message
  if containsSub "summarize" lower && containsSub "slack" lower then
    if !truthyStr threadInfo.channel || !truthyStr threadInfo.thread_ts then
      (.ok (errorEnvelope "Could not extract channel or thread information from message"),
        [])
    else
      let channel := threadInfo.channel.getD ""
      let thread_ts := threadInfo.thread_ts.getD ""
      match summarize_thread env channel thread_ts with
      | (.error e, calls) => (.error e, calls)
      | (.ok summary, calls) =>
          match post_summary env channel thread_ts summary.summary with
          | (.error e, calls2) => (.error e, calls ++ calls2)
          | (.ok _, calls2) =>
              (.ok { status := "success", action := some "summarize_thread",
                     data := some (.summary summary) },
                calls ++ calls2)
  else if containsSub "monitor" lower && containsSub "slack" lower then
    if !truthyStr threadInfo.channel then
      (.ok (errorEnvelope "Could not extract channel information from message"), [])
    else
      match monitor_channel env (threadInfo.channel.getD "") (monitorKeywords message) with
      | (.error e, calls) => (.error e, calls)
      | (.ok found, calls) =>
          (.ok { status := "success", action := some "monitor_channel",
                 data := some (.monitorMatches found) },
            calls)
  else if containsSub "triage" lower && containsSub "github" lower then
    match extractRepo message with
    | none =>
        (.ok (errorEnvelope "Could not extract repository information from message"), [])
    | some repo =>
        match triage_issues env repo with
        | (.error e, calls) => (.error e, calls)
        | (.ok result, calls) =>
            (.ok { status := "success", action := some "triage_issues",
                   data := some (.triage result) },
              calls)
  else if containsSub "review" lower && containsSub "pr" lower then
    match extractRepo message, extractPrNumber message with
    | some repo, some pr_number =>
        if pr_number == 0 then
          (.ok (errorEnvelope "Could not extract repository or PR number from message"),
            [])
        else
          match review_pull_request env repo pr_number with
          | (.error e, calls) => (.error e, calls)
          | (.ok result, calls) =>
              (.ok { status := "success", action := some "review_pr",
                     data := some (.review result) },
                calls)
    | _, _ =>
        (.ok (errorEnvelope "Could not extract repository or PR number from message"),
          [])
  else
    (.ok (errorEnvelope "I\x27m not sure what to do with that request yet."), [])

/-- `SynapseAgent.handle`: call `extract_thread_info` first, then dispatch;
any exception (from extraction or a downstream call) is caught at the top
level, logged to the tracker as a failed `agent_handle` invocation, and
converted to an error envelope carrying the exception text. -/
def handle (env : Env) (message : String) : Envelope × List Call :=
  match env.extractResult with
  | .error e =>
      (errorEnvelope ("Error processing request: " ++ e),
        [.extractThreadInfo message, .logToolUsage "agent_handle" "error"])
  | .ok threadInfo =>
      match dispatch env threadInfo message with
      | (.ok envelope, calls) => (envelope, .extractThreadInfo message :: calls)
      | (.error e, calls) =>
          (errorEnvelope ("Error processing request: " ++ e),
            .extractThreadInfo message :: (calls ++ [.logToolUsage "agent_handle" "error"]))

/-! ## Redis cache model (backend/memory/redis_cache.py)

The store maps keys to a value plus an absolute expiry time; `setex` sets
expiry `now + ttl`, and a `get` at time `now` sees the value iff `now` is
before the expiry (native Redis TTL expiry).  `json.dumps`/`json.loads` of
the summary dictionary is a round trip, and the claims quantify values only
modulo that round trip, so the model stores the summary value directly
(`json.dumps` of a dict is never the empty string, so the
`json.loads(data) if data else None` guard is exactly a presence test). -/

/-- `settings.cache_ttl` default (3600 seconds). -/
def cacheTtlDefault : Nat := 3600

/-- The key-value store with per-key absolute expiry times. -/
structure RedisStore where
  entries : String → Option (ThreadSummary × Nat)

/-- The cache key `thread_summary:{channel}:{thread_ts}`. -/
def threadSummaryKey (channel thread_ts : String) : String :=
  "thread_summary:" ++ channel ++ ":" ++ thread_ts

/-- Python `ttl or settings.cache_ttl`: `None` (and a zero ttl, which is
falsy) fall back to the configured default. -/
def ttlOrDefault : Option Nat → Nat
  | none => cacheTtlDefault
  | some n => if n == 0 then cacheTtlDefault else n

/-- `redis.setex(key, timedelta(seconds=ttl), value)` at time `now`. -/
def redisSetex (store : RedisStore) (now : Nat) (key : String) (ttl : Nat)
    (value : ThreadSummary) : RedisStore :=
  ⟨fun k => if k == key then some (value, now + ttl) else store.entries k⟩

/-- `redis.get(key)` at time `now` under TTL expiry. -/
def redisGet (store : RedisStore) (now : Nat) (key : String) :
    Option ThreadSummary :=
  match store.entries key with
  | some (value, expiry) => if now < expiry then some value else none
  | none => none

/-- `RedisCache.get_thread_summary`. -/
def get_thread_summary (store : RedisStore) (now : Nat)
    (channel thread_ts : String) : Option ThreadSummary :=
  redisGet store now (threadSummaryKey channel thread_ts)

/-- `RedisCache.set_thread_summary`. -/
def set_thread_summary (store : RedisStore) (now : Nat)
    (channel thread_ts : String) (summary : ThreadSummary)
    (ttl : Option Nat := none) : RedisStore :=
  redisSetex store now (threadSummaryKey channel thread_ts) (ttlOrDefault ttl) summary

/-! ## Trace recognizers -/

/-- Recognizes the unconditional LLM extraction call of `handle`. -/
def isExtractCall : Call → Bool
  | .extractThreadInfo _ => true
  | _ => false

/-- Recognizes any LLM Client invocation. -/
def isLlmClientCall : Call → Bool
  | .extractThreadInfo _ => true
  | .llmSummarize _ _ => true
  | .llmChat _ => true
  | _ => false

/-- Recognizes any Tool Client (Slack or GitHub) invocation. -/
def isToolClientCall : Call → Bool
  | .getThreadMessages _ _ => true
  | .getChannelHistory _ _ => true
  | .postMessage _ _ _ => true
  | .getIssues _ _ => true
  | .getPullRequests _ => true
  | .updateLabels _ _ _ => true
  | .addComment _ _ _ => true
  | _ => false

/-- Recognizes entry into any Tool Group operation. -/
def isToolGroupCall : Call → Bool
  | .toolSummarizeThread _ _ => true
  | .toolPostSummary _ _ => true
  | .toolMonitorChannel _ _ => true
  | .toolTriageIssues _ _ => true
  | .toolReviewPullRequest _ _ => true
  | _ => false

/-- Recognizes a cache write. -/
def isCacheSetCall : Call → Bool
  | .cacheSet _ _ _ => true
  | _ => false

/-- Recognizes a tracker `log_tool_usage` record. -/
def isTrackerCall : Call → Bool
  | .logToolUsage _ _ => true
  | _ => false

/-- Recognizes a GitHub label-update call. -/
def isUpdateLabelsCall : Call → Bool
  | .updateLabels _ _ _ => true
  | _ => false

/-- Recognizes a GitHub add-comment call. -/
def isAddCommentCall : Call → Bool
  | .addComment _ _ _ => true
  | _ => false

/-- Recognizes entry into `summarize_thread`. -/
def isToolSummarizeCall : Call → Bool
  | .toolSummarizeThread _ _ => true
  | _ => false

/-- Recognizes entry into `post_summary`. -/
def isToolPostCall : Call → Bool
  | .toolPostSummary _ _ => true
  | _ => false

/-- Recognizes entry into `review_pull_request`. -/
def isToolReviewCall : Call → Bool
  | .toolReviewPullRequest _ _ => true
  | _ => false

/-- Recognizes entry into `monitor_channel`. -/
def isToolMonitorCall : Call → Bool
  | .toolMonitorChannel _ _ => true
  | _ => false

/-- Recognizes entry into `triage_issues`. -/
def isToolTriageCall : Call → Bool
  | .toolTriageIssues _ _ => true
  | _ => false

/-- The intents the router can select (spec glossary), plus the fallback. -/
inductive Intent where
  | summarizeThread
  | monitorChannel
  | triageIssues
  | reviewPr
  | fallback
deriving DecidableEq, Repr

/-- The keyword classification performed by `handle`: the four keyword pairs
are tested in source order on the lowercased message and the first matching
pair wins; a message matching no pair is the fallback. -/
def classify (message : String) : Intent :=
  let lower := pyLower message
  if containsSub "summarize" lower && containsSub "slack" lower then .summarizeThread
  else if containsSub "monitor" lower && containsSub "slack" lower then .monitorChannel
  else if containsSub "triage" lower && containsSub "github" lower then .triageIssues
  else if containsSub "review" lower && containsSub "pr" lower then .reviewPr
  else .fallback

/-! ## Concrete environments for witnesses and counterexamples -/

/-- A sample cached/produced thread summary. -/
def demoSummary : ThreadSummary :=
  { summary := "team agreed to ship on friday", model := "gpt-4-turbo-preview",
    token_count := 42 }

/-- A baseline oracle in which every downstream call succeeds. -/
def baseEnv : Env :=
  { extractResult := .ok { channel := none, thread_ts := none },
    cacheLookup := none,
    threadMessages := .ok [{ user := "ana", text := "ship friday?" }],
    llmSummary := .ok ("team agreed to ship on friday", 42),
    postResult := .ok (),
    channelHistory := .ok [],
    issues := .ok [],
    triageLlmContent := .ok "",
    pullRequests := .ok [],
    reviewLlmContent := .ok "looks good" }

/-- Oracle whose extraction yields a truthy channel and thread timestamp. -/
def envSumm : Env :=
  { baseEnv with extractResult := .ok { channel := some "C123", thread_ts := some "1700.0001" } }

/-- Oracle whose extraction yields an empty-string (falsy) channel. -/
def envEmptyChannel : Env :=
  { baseEnv with extractResult := .ok { channel := some "", thread_ts := some "1700.0001" } }

/-- Oracle with a cached summary present. -/
def envCacheHit : Env :=
  { baseEnv with cacheLookup := some demoSummary }

/-- Oracle for triage: two open issues and a two-element JSON-array response. -/
def envTriage : Env :=
  { baseEnv with
    issues := .ok
      [{ number := 1, title := "crash on boot", labels := ["bug"], body := "trace" },
       { number := 2, title := "typo in docs", labels := [], body := "fix" }],
    triageLlmContent := .ok "[two suggestion objects]" }

/-- Oracle for review: PR #42 exists and the LLM answers. -/
def envReview : Env :=
  { baseEnv with
    pullRequests := .ok
      [{ number := 42, title := "add cache", body := "adds ttl cache",
         changed_files := 3, additions := 120, deletions := 8 }] }

/-- Oracle whose LLM extraction raises (non-JSON completion). -/
def envExtractFail : Env :=
  { baseEnv with
    extractResult := .error "Error extracting thread info: Expecting value: line 1 column 1 (char 0)" }

/-- Oracle for channel monitoring with a mixed history. -/
def envMonitor : Env :=
  { baseEnv with
    channelHistory := .ok
      [{ user := "ana", text := "URGENT: prod is down" },
       { user := "bo", text := "lunch at noon" },
       { user := "cy", text := "this is urgent too" }] }

/-- The empty key-value store. -/
def emptyStore : RedisStore := ⟨fun _ => none⟩

/-! ## Helper lemmas -/

/-- A nonempty string is Python-truthy. -/
theorem truthyStr_some_of_ne (s : String) (h : s ≠ "") : truthyStr (some s) = true := by
  cases hb : (s == "") with
  | true => exact absurd (eq_of_beq hb) h
  | false => simp [truthyStr, hb]

/-- The `monitor_channel` accumulator loop is `List.filter` over the keyword
predicate, in fetch order. -/
theorem monitorLoop_eq_filter (keywords : List String) (msgs acc : List SlackMsg) :
    monitorLoop keywords msgs acc = acc ++ msgs.filter (keywordMatch keywords) := by
  induction msgs generalizing acc with
  | nil => simp [monitorLoop]
  | cons m rest ih =>
      by_cases h : keywordMatch keywords m = true
      · simp [monitorLoop, h, ih, List.filter_cons]
      · simp only [Bool.not_eq_true] at h
        simp [monitorLoop, h, ih, List.filter_cons]

/-- `summarize_thread` never invokes the extraction call. -/
theorem countP_extract_summarize (env : Env) (c t m : String) :
    List.countP isExtractCall (summarize_thread env c t m).2 = 0 := by
  cases hc : env.cacheLookup with
  | some v => simp [summarize_thread, hc, isExtractCall]
  | none =>
      cases ht : env.threadMessages with
      | error e => simp [summarize_thread, hc, ht, isExtractCall]
      | ok msgs =>
          cases hl : env.llmSummary with
          | error e => simp [summarize_thread, hc, ht, hl, isExtractCall]
          | ok p =>
              obtain ⟨content, tokens⟩ := p
              simp [summarize_thread, hc, ht, hl, isExtractCall]

/-- `post_summary` never invokes the extraction call. -/
theorem countP_extract_post (env : Env) (c t s : String) :
    List.countP isExtractCall (post_summary env c t s).2 = 0 := by
  cases hp : env.postResult with
  | error e => simp [post_summary, hp, isExtractCall]
  | ok u => simp [post_summary, hp, isExtractCall]

/-- `monitor_channel` never invokes the extraction call. -/
theorem countP_extract_monitor (env : Env) (c : String) (kws : List String) (lim : Nat) :
    List.countP isExtractCall (monitor_channel env c kws lim).2 = 0 := by
  cases hh : env.channelHistory with
  | error e => simp [monitor_channel, hh, isExtractCall]
  | ok msgs => simp [monitor_channel, hh, isExtractCall]

/-- `triage_issues` never invokes the extraction call. -/
theorem countP_extract_triage (env : Env) (repo state : String) :
    List.countP isExtractCall (triage_issues env repo state).2 = 0 := by
  cases hi : env.issues with
  | error e => simp [triage_issues, hi, isExtractCall]
  | ok issues =>
      cases hc : env.triageLlmContent with
      | error e => simp [triage_issues, hi, hc, isExtractCall]
      | ok content =>
          cases hch : content.data with
          | nil => simp [triage_issues, hi, hc, applySuggestions, String.toList, hch, isExtractCall]
          | cons a l => simp [triage_issues, hi, hc, applySuggestions, String.toList, hch, isExtractCall]

/-- `review_pull_request` never invokes the extraction call. -/
theorem countP_extract_review (env : Env) (repo : String) (n : Nat) :
    List.countP isExtractCall (review_pull_request env repo n).2 = 0 := by
  cases hp : env.pullRequests with
  | error e => simp [review_pull_request, hp, isExtractCall]
  | ok prs =>
      cases hf : prs.find? (fun p => p.number == n) with
      | none => simp [review_pull_request, hp, hf, isExtractCall]
      | some pr =>
          cases hr : env.reviewLlmContent with
          | error e => simp [review_pull_request, hp, hf, hr, isExtractCall]
          | ok content => simp [review_pull_request, hp, hf, hr, isExtractCall]

/-- The only Tool Group marker `summarize_thread` can emit is its own. -/
theorem markers_summarize_thread (env : Env) (c t m : String) :
    ∀ call ∈ (summarize_thread env c t m).2, isToolGroupCall call = true →
      isToolSummarizeCall call = true := by
  cases hc : env.cacheLookup with
  | some v => simp [summarize_thread, hc, isToolGroupCall, isToolSummarizeCall]
  | none =>
      cases ht : env.threadMessages with
      | error e =>
          simp [summarize_thread, hc, ht, isToolGroupCall, isToolSummarizeCall]
      | ok msgs =>
          cases hl : env.llmSummary with
          | error e =>
              simp [summarize_thread, hc, ht, hl, isToolGroupCall, isToolSummarizeCall]
          | ok p =>
              obtain ⟨content, tokens⟩ := p
              simp [summarize_thread, hc, ht, hl, isToolGroupCall, isToolSummarizeCall]

/-- The only Tool Group marker `post_summary` can emit is its own. -/
theorem markers_post_summary (env : Env) (c t s : String) :
    ∀ call ∈ (post_summary env c t s).2, isToolGroupCall call = true →
      isToolPostCall call = true := by
  cases hp : env.postResult with
  | error e => simp [post_summary, hp, isToolGroupCall, isToolPostCall]
  | ok u => simp [post_summary, hp, isToolGroupCall, isToolPostCall]

/-- The only Tool Group marker `monitor_channel` can emit is its own. -/
theorem markers_monitor_channel (env : Env) (c : String) (kws : List String)
    (lim : Nat) :
    ∀ call ∈ (monitor_channel env c kws lim).2, isToolGroupCall call = true →
      isToolMonitorCall call = true := by
  cases hh : env.channelHistory with
  | error e => simp [monitor_channel, hh, isToolGroupCall, isToolMonitorCall]
  | ok msgs => simp [monitor_channel, hh, isToolGroupCall, isToolMonitorCall]

/-- The only Tool Group marker `triage_issues` can emit is its own. -/
theorem markers_triage_issues (env : Env) (repo state : String) :
    ∀ call ∈ (triage_issues env repo state).2, isToolGroupCall call = true →
      isToolTriageCall call = true := by
  cases hi : env.issues with
  | error e => simp [triage_issues, hi, isToolGroupCall, isToolTriageCall]
  | ok issues =>
      cases hc : env.triageLlmContent with
      | error e => simp [triage_issues, hi, hc, isToolGroupCall, isToolTriageCall]
      | ok content =>
          cases hch : content.data with
          | nil =>
              simp [triage_issues, hi, hc, applySuggestions, String.toList, hch,
                isToolGroupCall, isToolTriageCall]
          | cons a l =>
              simp [triage_issues, hi, hc, applySuggestions, String.toList, hch,
                isToolGroupCall, isToolTriageCall]

/-- The only Tool Group marker `review_pull_request` can emit is its own. -/
theorem markers_review_pull_request (env : Env) (repo : String) (n : Nat) :
    ∀ call ∈ (review_pull_request env repo n).2, isToolGroupCall call = true →
      isToolReviewCall call = true := by
  cases hp : env.pullRequests with
  | error e => simp [review_pull_request, hp, isToolGroupCall, isToolReviewCall]
  | ok prs =>
      cases hf : prs.find? (fun p => p.number == n) with
      | none => simp [review_pull_request, hp, hf, isToolGroupCall, isToolReviewCall]
      | some pr =>
          cases hr : env.reviewLlmContent with
          | error e =>
              simp [review_pull_request, hp, hf, hr, isToolGroupCall, isToolReviewCall]
          | ok content =>
              simp [review_pull_request, hp, hf, hr, isToolGroupCall, isToolReviewCall]

/-- When the summarize+slack pair matches, the dispatch body can only emit
summarize/post markers and can only report the `summarize_thread` action. -/
theorem dispatch_markers_summarize (env : Env) (ti : ThreadInfo) (message : String)
    (c1 : (containsSub "summarize" (pyLower message) &&
           containsSub "slack" (pyLower message)) = true) :
    (∀ call ∈ (dispatch env ti message).2, isToolGroupCall call = true →
        (isToolSummarizeCall call || isToolPostCall call) = true) ∧
    (∀ envl, (dispatch env ti message).1 = .ok envl →
        envl.action = some "summarize_thread" ∨ envl.action = none) := by
  by_cases htr : (!truthyStr ti.channel || !truthyStr ti.thread_ts) = true
  · constructor
    · intro call hc hg
      simp [dispatch, c1, htr] at hc
    · intro envl he
      simp [dispatch, c1, htr] at he
      subst he
      simp [errorEnvelope]
  · simp only [Bool.not_eq_true] at htr
    rcases hseq : summarize_thread env (ti.channel.getD "")
      (ti.thread_ts.getD "") "gpt-4-turbo-preview" with ⟨r, calls⟩
    have hms := markers_summarize_thread env (ti.channel.getD "")
      (ti.thread_ts.getD "") "gpt-4-turbo-preview"
    rw [hseq] at hms
    simp only at hms
    cases r with
    | error e =>
        constructor
        · intro call hc hg
          simp [dispatch, c1, htr, hseq] at hc
          simp [hms call hc hg]
        · intro envl he
          simp [dispatch, c1, htr, hseq] at he
    | ok summary =>
        rcases hpeq : post_summary env (ti.channel.getD "")
          (ti.thread_ts.getD "") summary.summary with ⟨r2, calls2⟩
        have hmp := markers_post_summary env (ti.channel.getD "")
          (ti.thread_ts.getD "") summary.summary
        rw [hpeq] at hmp
        simp only at hmp
        cases r2 with
        | error e =>
            constructor
            · intro call hc hg
              simp [dispatch, c1, htr, hseq, hpeq] at hc
              rcases hc with hc | hc
              · simp [hms call hc hg]
              · simp [hmp call hc hg]
            · intro envl he
              simp [dispatch, c1, htr, hseq, hpeq] at he
        | ok u =>
            constructor
            · intro call hc hg
              simp [dispatch, c1, htr, hseq, hpeq] at hc
              rcases hc with hc | hc
              · simp [hms call hc hg]
              · simp [hmp call hc hg]
            · intro envl he
              simp [dispatch, c1, htr, hseq, hpeq] at he
              subst he
              simp

/-- When monitor+slack is the first matching pair, the dispatch body can
only emit the monitor marker and report the `monitor_channel` action. -/
theorem dispatch_markers_monitor (env : Env) (ti : ThreadInfo) (message : String)
    (c1 : (containsSub "summarize" (pyLower message) &&
           containsSub "slack" (pyLower message)) = false)
    (c2 : (containsSub "monitor" (pyLower message) &&
           containsSub "slack" (pyLower message)) = true) :
    (∀ call ∈ (dispatch env ti message).2, isToolGroupCall call = true →
        isToolMonitorCall call = true) ∧
    (∀ envl, (dispatch env ti message).1 = .ok envl →
        envl.action = some "monitor_channel" ∨ envl.action = none) := by
  by_cases htr : (!truthyStr ti.channel) = true
  · constructor
    · intro call hc hg
      simp [dispatch, c1, c2, htr] at hc
    · intro envl he
      simp [dispatch, c1, c2, htr] at he
      subst he
      simp [errorEnvelope]
  · simp only [Bool.not_eq_true] at htr
    rcases hmeq : monitor_channel env (ti.channel.getD "")
      (monitorKeywords message) 100 with ⟨r, calls⟩
    have hmm := markers_monitor_channel env (ti.channel.getD "")
      (monitorKeywords message) 100
    rw [hmeq] at hmm
    simp only at hmm
    cases r with
    | error e =>
        constructor
        · intro call hc hg
          simp [dispatch, c1, c2, htr, hmeq] at hc
          exact hmm call hc hg
        · intro envl he
          simp [dispatch, c1, c2, htr, hmeq] at he
    | ok found =>
        constructor
        · intro call hc hg
          simp [dispatch, c1, c2, htr, hmeq] at hc
          exact hmm call hc hg
        · intro envl he
          simp [dispatch, c1, c2, htr, hmeq] at he
          subst he
          simp

/-- When triage+github is the first matching pair, the dispatch body can
only emit the triage marker and report the `triage_issues` action. -/
theorem dispatch_markers_triage (env : Env) (ti : ThreadInfo) (message : String)
    (c1 : (containsSub "summarize" (pyLower message) &&
           containsSub "slack" (pyLower message)) = false)
    (c2 : (containsSub "monitor" (pyLower message) &&
           containsSub "slack" (pyLower message)) = false)
    (c3 : (containsSub "triage" (pyLower message) &&
           containsSub "github" (pyLower message)) = true) :
    (∀ call ∈ (dispatch env ti message).2, isToolGroupCall call = true →
        isToolTriageCall call = true) ∧
    (∀ envl, (dispatch env ti message).1 = .ok envl →
        envl.action = some "triage_issues" ∨ envl.action = none) := by
  cases hrep : extractRepo message with
  | none =>
      constructor
      · intro call hc hg
        simp [dispatch, c1, c2, c3, hrep] at hc
      · intro envl he
        simp [dispatch, c1, c2, c3, hrep] at he
        subst he
        simp [errorEnvelope]
  | some repo =>
      rcases hteq : triage_issues env repo "open" with ⟨r, calls⟩
      have hmt := markers_triage_issues env repo "open"
      rw [hteq] at hmt
      simp only at hmt
      cases r with
      | error e =>
          constructor
          · intro call hc hg
            simp [dispatch, c1, c2, c3, hrep, hteq] at hc
            exact hmt call hc hg
          · intro envl he
            simp [dispatch, c1, c2, c3, hrep, hteq] at he
      | ok result =>
          constructor
          · intro call hc hg
            simp [dispatch, c1, c2, c3, hrep, hteq] at hc
            exact hmt call hc hg
          · intro envl he
            simp [dispatch, c1, c2, c3, hrep, hteq] at he
            subst he
            simp

/-- When review+pr is the first matching pair, the dispatch body can only
emit the review marker and report the `review_pr` action. -/
theorem dispatch_markers_review (env : Env) (ti : ThreadInfo) (message : String)
    (c1 : (containsSub "summarize" (pyLower message) &&
           containsSub "slack" (pyLower message)) = false)
    (c2 : (containsSub "monitor" (pyLower message) &&
           containsSub "slack" (pyLower message)) = false)
    (c3 : (containsSub "triage" (pyLower message) &&
           containsSub "github" (pyLower message)) = false)
    (c4 : (containsSub "review" (pyLower message) &&
           containsSub "pr" (pyLower message)) = true) :
    (∀ call ∈ (dispatch env ti message).2, isToolGroupCall call = true →
        isToolReviewCall call = true) ∧
    (∀ envl, (dispatch env ti message).1 = .ok envl →
        envl.action = some "review_pr" ∨ envl.action = none) := by
  cases hrep : extractRepo message with
  | none =>
      cases hpn : extractPrNumber message with
      | none =>
          constructor
          · intro call hc hg
            simp [dispatch, c1, c2, c3, c4, hrep, hpn] at hc
          · intro envl he
            simp [dispatch, c1, c2, c3, c4, hrep, hpn] at he
            subst he
            simp [errorEnvelope]
      | some n =>
          constructor
          · intro call hc hg
            simp [dispatch, c1, c2, c3, c4, hrep, hpn] at hc
          · intro envl he
            simp [dispatch, c1, c2, c3, c4, hrep, hpn] at he
            subst he
            simp [errorEnvelope]
  | some repo =>
      cases hpn : extractPrNumber message with
      | none =>
          constructor
          · intro call hc hg
            simp [dispatch, c1, c2, c3, c4, hrep, hpn] at hc
          · intro envl he
            simp [dispatch, c1, c2, c3, c4, hrep, hpn] at he
            subst he
            simp [errorEnvelope]
      | some n =>
          by_cases hz : (n == 0) = true
          · constructor
            · intro call hc hg
              simp [dispatch, c1, c2, c3, c4, hrep, hpn, hz] at hc
            · intro envl he
              simp [dispatch, c1, c2, c3, c4, hrep, hpn, hz] at he
              subst he
              simp [errorEnvelope]
          · simp only [Bool.not_eq_true] at hz
            rcases hreq : review_pull_request env repo n with ⟨r, calls⟩
            have hmr := markers_review_pull_request env repo n
            rw [hreq] at hmr
            simp only at hmr
            cases r with
            | error e =>
                constructor
                · intro call hc hg
                  simp [dispatch, c1, c2, c3, c4, hrep, hpn, hz, hreq] at hc
                  exact hmr call hc hg
                · intro envl he
                  simp [dispatch, c1, c2, c3, c4, hrep, hpn, hz, hreq] at he
            | ok result =>
                constructor
                · intro call hc hg
                  simp [dispatch, c1, c2, c3, c4, hrep, hpn, hz, hreq] at hc
                  exact hmr call hc hg
                · intro envl he
                  simp [dispatch, c1, c2, c3, c4, hrep, hpn, hz, hreq] at he
                  subst he
                  simp

/-- Lifts per-branch dispatch facts through the try/except wrapper of
`handle`: the extraction call and the `agent_handle` error record are not
Tool Group markers, and a caught exception reports no action. -/
theorem handle_branch_lift (env : Env) (ti : ThreadInfo) (message : String)
    (p : Call → Bool) (act : String)
    (hex : env.extractResult = .ok ti)
    (hmark : ∀ call ∈ (dispatch env ti message).2, isToolGroupCall call = true →
        p call = true)
    (hact : ∀ envl, (dispatch env ti message).1 = .ok envl →
        envl.action = some act ∨ envl.action = none) :
    (∀ call ∈ (handle env message).2, isToolGroupCall call = true → p call = true) ∧
    ((handle env message).1.action = some act ∨
     (handle env message).1.action = none) := by
  rcases hd : dispatch env ti message with ⟨r, calls⟩
  rw [hd] at hmark hact
  simp only at hmark hact
  cases r with
  | error e =>
      have hh : handle env message =
          (errorEnvelope ("Error processing request: " ++ e),
           .extractThreadInfo message ::
             (calls ++ [.logToolUsage "agent_handle" "error"])) := by
        simp [handle, hex, hd]
      rw [hh]
      constructor
      · intro call hc hg
        rcases List.mem_cons.1 hc with h1 | h2
        · subst h1; simp [isToolGroupCall] at hg
        · rcases List.mem_append.1 h2 with h3 | h4
          · exact hmark call h3 hg
          · simp at h4; subst h4; simp [isToolGroupCall] at hg
      · simp [errorEnvelope]
  | ok envl =>
      have hh : handle env message = (envl, .extractThreadInfo message :: calls) := by
        simp [handle, hex, hd]
      rw [hh]
      constructor
      · intro call hc hg
        rcases List.mem_cons.1 hc with h1 | h2
        · subst h1; simp [isToolGroupCall] at hg
        · exact hmark call h2 hg
      · exact hact envl rfl

/-! ## Claim theorems -/

/-- C1: whenever the LLM returns a (necessarily nonempty) JSON array of
suggestions, `triage_issues` raises `TypeError` — the raw response string is
iterated character by character and each character is subscripted with a
string key — and performs zero label-update calls and zero add-comment
calls, contradicting the claimed one label-update plus one comment per
suggestion. -/
theorem triage_suggestion_loop_raises (env : Env) (repo state : String)
    (issues : List Issue) (content : String)
    (hi : env.issues = .ok issues)
    (hc : env.triageLlmContent = .ok content)
    (hne : content ≠ "") :
    (triage_issues env repo state).1 =
      .error "TypeError: string indices must be integers" ∧
    List.countP isUpdateLabelsCall (triage_issues env repo state).2 = 0 ∧
    List.countP isAddCommentCall (triage_issues env repo state).2 = 0 := by
  obtain ⟨data⟩ := content
  cases data with
  | nil => exact absurd rfl hne
  | cons a l =>
      refine ⟨?_, ?_, ?_⟩ <;>
        simp [triage_issues, hi, hc, applySuggestions, String.toList,
          isUpdateLabelsCall, isAddCommentCall]

/-- Witness for C1: two open issues, the LLM answers with a two-element JSON
array, and the code raises before touching labels or comments. -/
theorem triage_suggestion_loop_raises_w :
    (triage_issues envTriage "owner/repo" "open").1 =
      .error "TypeError: string indices must be integers" ∧
    List.countP isUpdateLabelsCall (triage_issues envTriage "owner/repo" "open").2 = 0 ∧
    List.countP isAddCommentCall (triage_issues envTriage "owner/repo" "open").2 = 0 :=
  triage_suggestion_loop_raises envTriage "owner/repo" "open"
    [{ number := 1, title := "crash on boot", labels := ["bug"], body := "trace" },
     { number := 2, title := "typo in docs", labels := [], body := "fix" }]
    "[two suggestion objects]" rfl rfl (by decide)

/-- C2: when the requested PR exists among the fetched PRs, the review is
requested from the LLM, but `review_pull_request` then raises `TypeError`
while formatting the comment (the raw response string is subscripted with
the key `assessment`), so no comment is posted and the success dictionary is
never returned. -/
theorem review_comment_formatting_raises (env : Env) (repo : String)
    (pr_number : Nat) (prs : List PullRequest) (pr : PullRequest) (content : String)
    (hp : env.pullRequests = .ok prs)
    (hf : prs.find? (fun p => p.number == pr_number) = some pr)
    (hc : env.reviewLlmContent = .ok content) :
    (review_pull_request env repo pr_number).1 =
      .error "TypeError: string indices must be integers" ∧
    List.countP isAddCommentCall (review_pull_request env repo pr_number).2 = 0 ∧
    ∀ r : ReviewResult, (review_pull_request env repo pr_number).1 ≠ .ok r := by
  refine ⟨?_, ?_, ?_⟩ <;>
    simp [review_pull_request, hp, hf, hc, isAddCommentCall]

/-- Witness for C2: PR #42 exists, the LLM answers, and the operation raises
with no comment posted. -/
theorem review_comment_formatting_raises_w :
    (review_pull_request envReview "owner/repo" 42).1 =
      .error "TypeError: string indices must be integers" ∧
    List.countP isAddCommentCall (review_pull_request envReview "owner/repo" 42).2 = 0 ∧
    ∀ r : ReviewResult, (review_pull_request envReview "owner/repo" 42).1 ≠ .ok r :=
  review_comment_formatting_raises envReview "owner/repo" 42
    [{ number := 42, title := "add cache", body := "adds ttl cache",
       changed_files := 3, additions := 120, deletions := 8 }]
    { number := 42, title := "add cache", body := "adds ttl cache",
      changed_files := 3, additions := 120, deletions := 8 }
    "looks good" rfl (by decide) rfl

/-- C5: a `summarize_thread` call that finds a cached summary returns it
after logging exactly one tracker record with status `cache_hit`, with no
Tool Client call, no LLM Client call, and no cache write. -/
theorem summarize_thread_cache_hit (env : Env) (channel thread_ts model : String)
    (v : ThreadSummary) (h : env.cacheLookup = some v) :
    summarize_thread env channel thread_ts model =
      (.ok v,
        [.toolSummarizeThread channel thread_ts, .cacheGet channel thread_ts,
         .logToolUsage "summarize_thread" "cache_hit"]) ∧
    List.countP isToolClientCall (summarize_thread env channel thread_ts model).2 = 0 ∧
    List.countP isLlmClientCall (summarize_thread env channel thread_ts model).2 = 0 ∧
    List.countP isCacheSetCall (summarize_thread env channel thread_ts model).2 = 0 ∧
    List.countP isTrackerCall (summarize_thread env channel thread_ts model).2 = 1 := by
  refine ⟨?_, ?_, ?_, ?_, ?_⟩ <;>
    simp [summarize_thread, h, isToolClientCall, isLlmClientCall,
      isCacheSetCall, isTrackerCall]

/-- Witness for C5: a concrete cache hit. -/
theorem summarize_thread_cache_hit_w :
    summarize_thread envCacheHit "C123" "1700.0001" "gpt-4-turbo-preview" =
      (.ok demoSummary,
        [.toolSummarizeThread "C123" "1700.0001", .cacheGet "C123" "1700.0001",
         .logToolUsage "summarize_thread" "cache_hit"]) ∧
    List.countP isToolClientCall
      (summarize_thread envCacheHit "C123" "1700.0001" "gpt-4-turbo-preview").2 = 0 ∧
    List.countP isLlmClientCall
      (summarize_thread envCacheHit "C123" "1700.0001" "gpt-4-turbo-preview").2 = 0 ∧
    List.countP isCacheSetCall
      (summarize_thread envCacheHit "C123" "1700.0001" "gpt-4-turbo-preview").2 = 0 ∧
    List.countP isTrackerCall
      (summarize_thread envCacheHit "C123" "1700.0001" "gpt-4-turbo-preview").2 = 1 :=
  summarize_thread_cache_hit envCacheHit "C123" "1700.0001" "gpt-4-turbo-preview"
    demoSummary rfl

/-- C8: `monitor_channel` returns exactly the fetched messages whose
lowercased text contains at least one lowercased keyword as a substring
(logical OR), as a filter of the fetched list — hence an order-preserving
sublist. -/
theorem monitor_channel_filters (env : Env) (channel : String)
    (keywords : List String) (limit : Nat) (msgs : List SlackMsg)
    (h : env.channelHistory = .ok msgs) :
    (monitor_channel env channel keywords limit).1 =
      .ok (msgs.filter (keywordMatch keywords)) ∧
    (msgs.filter (keywordMatch keywords)).Sublist msgs ∧
    ∀ m : SlackMsg, m ∈ msgs.filter (keywordMatch keywords) ↔
      m ∈ msgs ∧ ∃ k ∈ keywords, containsSub (pyLower k) (pyLower m.text) = true := by
  refine ⟨?_, List.filter_sublist msgs, ?_⟩
  · simp [monitor_channel, h, monitorLoop_eq_filter]
  · intro m
    simp [List.mem_filter, keywordMatch, List.any_eq_true]

/-- Witness for C8: keyword `urgent` against a three-message history keeps
the two matching messages in fetch order. -/
theorem monitor_channel_filters_w :
    (monitor_channel envMonitor "C9" ["urgent"] 100).1 =
      .ok [{ user := "ana", text := "URGENT: prod is down" },
           { user := "cy", text := "this is urgent too" }] ∧
    ([{ user := "ana", text := "URGENT: prod is down" },
      { user := "bo", text := "lunch at noon" },
      { user := "cy", text := "this is urgent too" }].filter
        (keywordMatch ["urgent"])).Sublist
      [{ user := "ana", text := "URGENT: prod is down" },
       { user := "bo", text := "lunch at noon" },
       { user := "cy", text := "this is urgent too" }] := by
  have h := monitor_channel_filters envMonitor "C9" ["urgent"] 100
    [{ user := "ana", text := "URGENT: prod is down" },
     { user := "bo", text := "lunch at noon" },
     { user := "cy", text := "this is urgent too" }] rfl
  refine ⟨?_, h.2.1⟩
  rw [h.1]
  simp only [Except.ok.injEq]
  decide

/-- C9: `set_thread_summary` followed by `get_thread_summary` on the same
`(channel, thread_ts)` returns the stored summary at any time before the
default TTL (3600 s) elapses, returns `none` from the moment it elapses, and
the write touches exactly the key `thread_summary:{channel}:{thread_ts}`. -/
theorem cache_roundtrip_ttl (store : RedisStore) (now : Nat)
    (channel thread_ts : String) (v : ThreadSummary) (st2 : RedisStore)
    (hset : st2 = set_thread_summary store now channel thread_ts v none) :
    (∀ t2, t2 < now + cacheTtlDefault →
        get_thread_summary st2 t2 channel thread_ts = some v) ∧
    (∀ t2, now + cacheTtlDefault ≤ t2 →
        get_thread_summary st2 t2 channel thread_ts = none) ∧
    (∀ key, key ≠ threadSummaryKey channel thread_ts →
        st2.entries key = store.entries key) := by
  subst hset
  refine ⟨?_, ?_, ?_⟩
  · intro t2 ht
    simp [get_thread_summary, set_thread_summary, redisGet, redisSetex,
      ttlOrDefault, ht]
  · intro t2 ht
    simp only [get_thread_summary, set_thread_summary, redisGet, redisSetex,
      ttlOrDefault, beq_self_eq_true, if_true]
    rw [if_neg (by omega)]
  · intro key hk
    simp [set_thread_summary, redisSetex, hk]

/-- Witness for C9: a concrete write at time 100 is readable at time 100 and
gone at time 3700. -/
theorem cache_roundtrip_ttl_w :
    get_thread_summary
      (set_thread_summary emptyStore 100 "C123" "1700.0001" demoSummary none)
      100 "C123" "1700.0001" = some demoSummary ∧
    get_thread_summary
      (set_thread_summary emptyStore 100 "C123" "1700.0001" demoSummary none)
      3700 "C123" "1700.0001" = none := by
  have h := cache_roundtrip_ttl emptyStore 100 "C123" "1700.0001" demoSummary _ rfl
  exact ⟨h.1 100 (by decide), h.2.1 3700 (by decide)⟩

/-- C3 (amended): when no keyword pair matches and extraction succeeds,
`handle` returns the fixed fallback error envelope and performs no Tool
Group or Tool Client call; the one LLM Client call is the unconditional
`extract_thread_info` that precedes classification. -/
theorem handle_fallback_envelope (env : Env) (message : String)
    (ti : ThreadInfo)
    (hex : env.extractResult = .ok ti)
    (h1 : (containsSub "summarize" (pyLower message) &&
           containsSub "slack" (pyLower message)) = false)
    (h2 : (containsSub "monitor" (pyLower message) &&
           containsSub "slack" (pyLower message)) = false)
    (h3 : (containsSub "triage" (pyLower message) &&
           containsSub "github" (pyLower message)) = false)
    (h4 : (containsSub "review" (pyLower message) &&
           containsSub "pr" (pyLower message)) = false) :
    handle env message =
      (errorEnvelope "I\x27m not sure what to do with that request yet.",
       [Call.extractThreadInfo message]) ∧
    List.countP isToolGroupCall (handle env message).2 = 0 ∧
    List.countP isToolClientCall (handle env message).2 = 0 ∧
    List.countP isLlmClientCall (handle env message).2 = 1 := by
  refine ⟨?_, ?_, ?_, ?_⟩ <;>
    simp [handle, dispatch, hex, h1, h2, h3, h4, isToolGroupCall,
      isToolClientCall, isLlmClientCall]

/-- Counterexample to C3 as stated: on the keyword-free message
`hello world` the fallback envelope is returned, yet one LLM Client call
(`extract_thread_info`) has been performed, so the claimed absence of any
LLM Client invocation is false. -/
theorem fallback_calls_llm_cx :
    containsSub "summarize" (pyLower "hello world") = false ∧
    containsSub "monitor" (pyLower "hello world") = false ∧
    containsSub "triage" (pyLower "hello world") = false ∧
    (containsSub "review" (pyLower "hello world") &&
     containsSub "pr" (pyLower "hello world")) = false ∧
    (handle baseEnv "hello world").1 =
      errorEnvelope "I\x27m not sure what to do with that request yet." ∧
    List.countP isLlmClientCall (handle baseEnv "hello world").2 = 1 := by
  decide

/-- Witness for C3 (amended) at the concrete message `hello world`. -/
theorem handle_fallback_envelope_w :
    handle baseEnv "hello world" =
      (errorEnvelope "I\x27m not sure what to do with that request yet.",
       [Call.extractThreadInfo "hello world"]) ∧
    List.countP isToolGroupCall (handle baseEnv "hello world").2 = 0 ∧
    List.countP isToolClientCall (handle baseEnv "hello world").2 = 0 ∧
    List.countP isLlmClientCall (handle baseEnv "hello world").2 = 1 :=
  handle_fallback_envelope baseEnv "hello world" { channel := none, thread_ts := none }
    rfl (by decide) (by decide) (by decide) (by decide)

/-- C4 (amended): on a summarize+slack message whose extraction yields a
nonempty (truthy) channel and thread timestamp, and whose downstream calls
succeed, `handle` enters `summarize_thread` exactly once and then
`post_summary` exactly once, both on the extracted pair, and returns the
success envelope with action `summarize_thread` carrying the summary. -/
theorem handle_summarize_then_post (env : Env) (message : String)
    (ti : ThreadInfo) (c t : String) (msgs : List SlackMsg)
    (content : String) (tokens : Nat)
    (hex : env.extractResult = .ok ti)
    (hchan : ti.channel = some c) (hcne : c ≠ "")
    (hts : ti.thread_ts = some t) (htne : t ≠ "")
    (hsum : containsSub "summarize" (pyLower message) = true)
    (hslack : containsSub "slack" (pyLower message) = true)
    (hmsgs : env.threadMessages = .ok msgs)
    (hllm : env.llmSummary = .ok (content, tokens))
    (hpost : env.postResult = .ok ()) :
    ∃ (s : ThreadSummary) (mid tail : List Call),
      handle env message =
        ({ status := "success", action := some "summarize_thread",
           data := some (.summary s) },
         Call.extractThreadInfo message :: Call.toolSummarizeThread c t ::
           (mid ++ Call.toolPostSummary c t :: tail)) ∧
      List.countP isToolSummarizeCall (handle env message).2 = 1 ∧
      List.countP isToolPostCall (handle env message).2 = 1 := by
  have hct := truthyStr_some_of_ne c hcne
  have htt := truthyStr_some_of_ne t htne
  cases hcache : env.cacheLookup with
  | some v =>
      refine ⟨v, [.cacheGet c t, .logToolUsage "summarize_thread" "cache_hit"],
        [.postMessage c (summaryMarker ++ v.summary) (some t),
         .logToolUsage "post_summary" "success"], ?_, ?_, ?_⟩ <;>
        simp [handle, dispatch, summarize_thread, post_summary, hex, hchan, hts,
          hct, htt, hsum, hslack, hcache, hmsgs, hllm, hpost,
          isToolSummarizeCall, isToolPostCall]
  | none =>
      refine ⟨{ summary := content, model := "gpt-4-turbo-preview",
                token_count := tokens },
        [.cacheGet c t, .getThreadMessages c t,
         .llmSummarize msgs "gpt-4-turbo-preview",
         .logLlmUsage "gpt-4-turbo-preview",
         .cacheSet c t { summary := content, model := "gpt-4-turbo-preview",
                         token_count := tokens },
         .logToolUsage "summarize_thread" "success"],
        [.postMessage c (summaryMarker ++ content) (some t),
         .logToolUsage "post_summary" "success"], ?_, ?_, ?_⟩ <;>
        simp [handle, dispatch, summarize_thread, post_summary, hex, hchan, hts,
          hct, htt, hsum, hslack, hcache, hmsgs, hllm, hpost,
          isToolSummarizeCall, isToolPostCall]

/-- Counterexample to C4 as stated: extraction yields the non-null but empty
channel `""`, and `handle` short-circuits with an error envelope — zero
`summarize_thread` invocations — because the code tests Python truthiness,
not nullness. -/
theorem summarize_empty_channel_cx :
    containsSub "summarize" (pyLower "summarize the slack thread") = true ∧
    containsSub "slack" (pyLower "summarize the slack thread") = true ∧
    handle envEmptyChannel "summarize the slack thread" =
      (errorEnvelope "Could not extract channel or thread information from message",
       [Call.extractThreadInfo "summarize the slack thread"]) ∧
    List.countP isToolSummarizeCall
      (handle envEmptyChannel "summarize the slack thread").2 = 0 := by
  decide

/-- Witness for C4 (amended) at a concrete summarize+slack request. -/
theorem handle_summarize_then_post_w :
    ∃ (s : ThreadSummary) (mid tail : List Call),
      handle envSumm "summarize the slack thread" =
        ({ status := "success", action := some "summarize_thread",
           data := some (.summary s) },
         Call.extractThreadInfo "summarize the slack thread" ::
           Call.toolSummarizeThread "C123" "1700.0001" ::
           (mid ++ Call.toolPostSummary "C123" "1700.0001" :: tail)) ∧
      List.countP isToolSummarizeCall
        (handle envSumm "summarize the slack thread").2 = 1 ∧
      List.countP isToolPostCall
        (handle envSumm "summarize the slack thread").2 = 1 :=
  handle_summarize_then_post envSumm "summarize the slack thread"
    { channel := some "C123", thread_ts := some "1700.0001" }
    "C123" "1700.0001" [{ user := "ana", text := "ship friday?" }]
    "team agreed to ship on friday" 42
    rfl rfl (by decide) rfl (by decide) (by decide) (by decide) rfl rfl rfl

/-- C6 (amended): on a review-pr message, `handle` calls
`review_pull_request` with the first slash-token not containing
`github.com` and the integer of the first token that is all digits after
stripping `#` from its ends (a bare digit token qualifies; a zero value is
falsy and rejected); when no such digit token exists at all it returns the
parameter-extraction error without any Tool Group call. -/
theorem handle_review_param_extraction (env : Env) (message : String)
    (ti : ThreadInfo)
    (hex : env.extractResult = .ok ti)
    (h1 : (containsSub "summarize" (pyLower message) &&
           containsSub "slack" (pyLower message)) = false)
    (h2 : (containsSub "monitor" (pyLower message) &&
           containsSub "slack" (pyLower message)) = false)
    (h3 : (containsSub "triage" (pyLower message) &&
           containsSub "github" (pyLower message)) = false)
    (h4 : containsSub "review" (pyLower message) = true)
    (h5 : containsSub "pr" (pyLower message) = true) :
    (∀ repo n, extractRepo message = some repo → extractPrNumber message = some n →
        n ≠ 0 →
        List.countP isToolReviewCall (handle env message).2 = 1 ∧
        Call.toolReviewPullRequest repo n ∈ (handle env message).2) ∧
    (extractPrNumber message = none →
        handle env message =
          (errorEnvelope "Could not extract repository or PR number from message",
           [Call.extractThreadInfo message]) ∧
        List.countP isToolGroupCall (handle env message).2 = 0) := by
  constructor
  · intro repo n hr hn hn0
    have hb : (n == 0) = false := by simp [hn0]
    cases hprs : env.pullRequests with
    | error e =>
        constructor <;>
          simp [handle, dispatch, review_pull_request, hex, h1, h2, h3, h4, h5,
            hr, hn, hb, hprs, isToolReviewCall]
    | ok prs =>
        cases hf : prs.find? (fun p => p.number == n) with
        | none =>
            constructor <;>
              simp [handle, dispatch, review_pull_request, hex, h1, h2, h3, h4,
                h5, hr, hn, hb, hprs, hf, isToolReviewCall]
        | some pr =>
            cases hrl : env.reviewLlmContent with
            | error e =>
                constructor <;>
                  simp [handle, dispatch, review_pull_request, hex, h1, h2, h3,
                    h4, h5, hr, hn, hb, hprs, hf, hrl, isToolReviewCall]
            | ok content =>
                constructor <;>
                  simp [handle, dispatch, review_pull_request, hex, h1, h2, h3,
                    h4, h5, hr, hn, hb, hprs, hf, hrl, isToolReviewCall]
  · intro hpn
    cases hrep : extractRepo message with
    | none =>
        constructor <;>
          simp [handle, dispatch, hex, h1, h2, h3, h4, h5, hrep, hpn,
            isToolGroupCall]
    | some r =>
        constructor <;>
          simp [handle, dispatch, hex, h1, h2, h3, h4, h5, hrep, hpn,
            isToolGroupCall]

/-- Counterexample to C6 as stated: in `review pr owner/repo 42` no token
has a `#` prefix, yet the Tool Group IS called (with pr_number 42 taken from
the bare digit token) instead of returning the parameter-extraction
error. -/
theorem review_bare_digit_token_cx :
    (pySplit "review pr owner/repo 42").all
      (fun w => !containsSub "#" w) = true ∧
    Call.toolReviewPullRequest "owner/repo" 42 ∈
      (handle envReview "review pr owner/repo 42").2 ∧
    (handle envReview "review pr owner/repo 42").1 ≠
      errorEnvelope "Could not extract repository or PR number from message" := by
  decide

/-- Witness for C6 (amended): the concrete message `review pr owner/repo 42`
produces exactly one `review_pull_request` entry with repo `owner/repo` and
number 42. -/
theorem handle_review_param_extraction_w :
    List.countP isToolReviewCall
      (handle envReview "review pr owner/repo 42").2 = 1 ∧
    Call.toolReviewPullRequest "owner/repo" 42 ∈
      (handle envReview "review pr owner/repo 42").2 :=
  (handle_review_param_extraction envReview "review pr owner/repo 42"
    { channel := none, thread_ts := none } rfl (by decide) (by decide)
    (by decide) (by decide) (by decide)).1
    "owner/repo" 42 (by decide) (by decide) (by decide)

/-- C7 (amended): `handle` tests the keyword pairs in the fixed source
order summarize-thread, monitor-channel, triage-issues, review-pr, with
first match winning.  For every message (with extraction succeeding), the
intent selected by `classify` — the first matching pair — is the only
branch whose Tool Group markers can appear in the call trace and the only
success action that can be reported, even when later keyword pairs also
match; and a message matching no pair receives exactly the fallback error
envelope with no Tool Group call, there being no generic-github branch. -/
theorem handle_priority_order (env : Env) (message : String) (ti : ThreadInfo)
    (hex : env.extractResult = .ok ti) :
    (classify message = .summarizeThread →
        (∀ call ∈ (handle env message).2, isToolGroupCall call = true →
            (isToolSummarizeCall call || isToolPostCall call) = true) ∧
        ((handle env message).1.action = some "summarize_thread" ∨
         (handle env message).1.action = none)) ∧
    (classify message = .monitorChannel →
        (∀ call ∈ (handle env message).2, isToolGroupCall call = true →
            isToolMonitorCall call = true) ∧
        ((handle env message).1.action = some "monitor_channel" ∨
         (handle env message).1.action = none)) ∧
    (classify message = .triageIssues →
        (∀ call ∈ (handle env message).2, isToolGroupCall call = true →
            isToolTriageCall call = true) ∧
        ((handle env message).1.action = some "triage_issues" ∨
         (handle env message).1.action = none)) ∧
    (classify message = .reviewPr →
        (∀ call ∈ (handle env message).2, isToolGroupCall call = true →
            isToolReviewCall call = true) ∧
        ((handle env message).1.action = some "review_pr" ∨
         (handle env message).1.action = none)) ∧
    (classify message = .fallback →
        handle env message =
          (errorEnvelope "I\x27m not sure what to do with that request yet.",
           [Call.extractThreadInfo message])) := by
  by_cases c1 : (containsSub "summarize" (pyLower message) &&
      containsSub "slack" (pyLower message)) = true
  · have hd := dispatch_markers_summarize env ti message c1
    exact ⟨fun _ => handle_branch_lift env ti message _ "summarize_thread" hex hd.1 hd.2,
      fun h => absurd h (by simp [classify, c1]),
      fun h => absurd h (by simp [classify, c1]),
      fun h => absurd h (by simp [classify, c1]),
      fun h => absurd h (by simp [classify, c1])⟩
  · simp only [Bool.not_eq_true] at c1
    by_cases c2 : (containsSub "monitor" (pyLower message) &&
        containsSub "slack" (pyLower message)) = true
    · have hd := dispatch_markers_monitor env ti message c1 c2
      exact ⟨fun h => absurd h (by simp [classify, c1, c2]),
        fun _ => handle_branch_lift env ti message _ "monitor_channel" hex hd.1 hd.2,
        fun h => absurd h (by simp [classify, c1, c2]),
        fun h => absurd h (by simp [classify, c1, c2]),
        fun h => absurd h (by simp [classify, c1, c2])⟩
    · simp only [Bool.not_eq_true] at c2
      by_cases c3 : (containsSub "triage" (pyLower message) &&
          containsSub "github" (pyLower message)) = true
      · have hd := dispatch_markers_triage env ti message c1 c2 c3
        exact ⟨fun h => absurd h (by simp [classify, c1, c2, c3]),
          fun h => absurd h (by simp [classify, c1, c2, c3]),
          fun _ => handle_branch_lift env ti message _ "triage_issues" hex hd.1 hd.2,
          fun h => absurd h (by simp [classify, c1, c2, c3]),
          fun h => absurd h (by simp [classify, c1, c2, c3])⟩
      · simp only [Bool.not_eq_true] at c3
        by_cases c4 : (containsSub "review" (pyLower message) &&
            containsSub "pr" (pyLower message)) = true
        · have hd := dispatch_markers_review env ti message c1 c2 c3 c4
          exact ⟨fun h => absurd h (by simp [classify, c1, c2, c3, c4]),
            fun h => absurd h (by simp [classify, c1, c2, c3, c4]),
            fun h => absurd h (by simp [classify, c1, c2, c3, c4]),
            fun _ => handle_branch_lift env ti message _ "review_pr" hex hd.1 hd.2,
            fun h => absurd h (by simp [classify, c1, c2, c3, c4])⟩
        · simp only [Bool.not_eq_true] at c4
          refine ⟨fun h => absurd h (by simp [classify, c1, c2, c3, c4]),
            fun h => absurd h (by simp [classify, c1, c2, c3, c4]),
            fun h => absurd h (by simp [classify, c1, c2, c3, c4]),
            fun h => absurd h (by simp [classify, c1, c2, c3, c4]),
            fun _ => ?_⟩
          simp [handle, dispatch, hex, c1, c2, c3, c4]

/-- Counterexample to C7 as stated: the message `github` contains `github`
and matches neither triage nor review, yet it receives the fallback error
envelope — there is no generic GitHub branch to route it to. -/
theorem github_no_generic_branch_cx :
    containsSub "github" (pyLower "github") = true ∧
    (containsSub "triage" (pyLower "github") &&
     containsSub "github" (pyLower "github")) = false ∧
    (containsSub "review" (pyLower "github") &&
     containsSub "pr" (pyLower "github")) = false ∧
    (handle baseEnv "github").1 =
      errorEnvelope "I\x27m not sure what to do with that request yet." := by
  decide

/-- Witness for C7 (amended): the message matches both the summarize+slack
pair and the triage+github pair, and the earlier summarize branch wins —
only summarize/post markers can appear and only the `summarize_thread`
action can be reported. -/
theorem handle_priority_order_w :
    (∀ call ∈ (handle envSumm "summarize slack then triage github owner/repo").2,
        isToolGroupCall call = true →
        (isToolSummarizeCall call || isToolPostCall call) = true) ∧
    ((handle envSumm "summarize slack then triage github owner/repo").1.action =
        some "summarize_thread" ∨
     (handle envSumm "summarize slack then triage github owner/repo").1.action =
        none) :=
  (handle_priority_order envSumm "summarize slack then triage github owner/repo"
    { channel := some "C123", thread_ts := some "1700.0001" } rfl).1 (by decide)

/-- No branch of the dispatch body ever invokes `extract_thread_info`
itself. -/
theorem countP_extract_dispatch (env : Env) (ti : ThreadInfo) (message : String) :
    List.countP isExtractCall (dispatch env ti message).2 = 0 := by
  simp only [dispatch]
  split
  · split
    · simp
    · rcases hseq : summarize_thread env (ti.channel.getD "")
        (ti.thread_ts.getD "") "gpt-4-turbo-preview" with ⟨r, calls⟩
      have hsum := countP_extract_summarize env (ti.channel.getD "")
        (ti.thread_ts.getD "") "gpt-4-turbo-preview"
      rw [hseq] at hsum
      simp only at hsum
      cases r with
      | error e => simp [hseq, hsum]
      | ok summary =>
          rcases hpeq : post_summary env (ti.channel.getD "")
            (ti.thread_ts.getD "") summary.summary with ⟨r2, calls2⟩
          have hp := countP_extract_post env (ti.channel.getD "")
            (ti.thread_ts.getD "") summary.summary
          rw [hpeq] at hp
          simp only at hp
          cases r2 with
          | error e => simp [hseq, hpeq, List.countP_append, hsum, hp]
          | ok u => simp [hseq, hpeq, List.countP_append, hsum, hp]
  · split
    · split
      · simp
      · rcases hmeq : monitor_channel env (ti.channel.getD "")
          (monitorKeywords message) 100 with ⟨r, calls⟩
        have hm := countP_extract_monitor env (ti.channel.getD "")
          (monitorKeywords message) 100
        rw [hmeq] at hm
        simp only at hm
        cases r with
        | error e => simp [hmeq, hm]
        | ok found => simp [hmeq, hm]
    · split
      · cases hrep : extractRepo message with
        | none => simp [hrep]
        | some repo =>
            rcases hteq : triage_issues env repo "open" with ⟨r, calls⟩
            have ht := countP_extract_triage env repo "open"
            rw [hteq] at ht
            simp only at ht
            cases r with
            | error e => simp [hrep, hteq, ht]
            | ok result => simp [hrep, hteq, ht]
      · split
        · cases hrep : extractRepo message with
          | none =>
              cases hpn : extractPrNumber message with
              | none => simp [hrep, hpn]
              | some n => simp [hrep, hpn]
          | some repo =>
              cases hpn : extractPrNumber message with
              | none => simp [hrep, hpn]
              | some n =>
                  by_cases hz : (n == 0) = true
                  · simp [hrep, hpn, hz]
                  · simp only [Bool.not_eq_true] at hz
                    rcases hreq : review_pull_request env repo n with ⟨r, calls⟩
                    have hr := countP_extract_review env repo n
                    rw [hreq] at hr
                    simp only at hr
                    cases r with
                    | error e => simp [hrep, hpn, hz, hreq, hr]
                    | ok result => simp [hrep, hpn, hz, hreq, hr]
        · simp

/-- C10: every `handle` call performs exactly one `extract_thread_info`
invocation, as the very first downstream call; and whenever extraction
raises, `handle` returns the error envelope carrying the exception text and
logs exactly one failed `agent_handle` tracker record — for every message,
whatever intent its keywords would have selected. -/
theorem handle_extracts_first (env : Env) (message : String) :
    (handle env message).2.head? = some (Call.extractThreadInfo message) ∧
    List.countP isExtractCall (handle env message).2 = 1 ∧
    (∀ e, env.extractResult = .error e →
        handle env message =
          (errorEnvelope ("Error processing request: " ++ e),
           [Call.extractThreadInfo message,
            Call.logToolUsage "agent_handle" "error"])) := by
  refine ⟨?_, ?_, ?_⟩
  · cases hex : env.extractResult with
    | error e => simp [handle, hex]
    | ok ti =>
        cases hd : dispatch env ti message with
        | mk r calls => cases r <;> simp [handle, hex, hd]
  · cases hex : env.extractResult with
    | error e => simp [handle, hex, isExtractCall]
    | ok ti =>
        have hdc := countP_extract_dispatch env ti message
        cases hd : dispatch env ti message with
        | mk r calls =>
            rw [hd] at hdc
            simp only at hdc
            cases r <;>
              simp [handle, hex, hd, isExtractCall, List.countP_cons,
                List.countP_append, hdc]
  · intro e hex
    simp [handle, hex]

/-- Witness for C10: a failing extraction on a GitHub triage request yields
the error envelope with the exception text and one failed `agent_handle`
record. -/
theorem handle_extracts_first_w :
    handle envExtractFail "triage github owner/repo" =
      (errorEnvelope
        ("Error processing request: " ++
         "Error extracting thread info: Expecting value: line 1 column 1 (char 0)"),
       [Call.extractThreadInfo "triage github owner/repo",
        Call.logToolUsage "agent_handle" "error"]) :=
  (handle_extracts_first envExtractFail "triage github owner/repo").2.2
    "Error extracting thread info: Expecting value: line 1 column 1 (char 0)" rfl

end Synapse
